import Mathlib

/-!
Verification of the tauri-mcp session/protocol core against its specification.

The definitions below are a shallow embedding of the Rust sources:
  * `src/tools/process.rs` — the process lifecycle manager (registry of tracked
    processes, log draining, stop/launch/attach control flow);
  * `src/server.rs` — the JSON-RPC request loop, version negotiation, the tool
    catalog and the two dispatch entry points.
Each definition carries a comment citing the lines of the source it embeds.
-/

set_option autoImplicit false

namespace TauriMcp

/-! ## JSON values

Shallow model of `serde_json::Value` restricted to what the server code
inspects.  Numbers are modelled as integers: the accessors the code uses
(`as_str`, `as_array`, `as_i64`, `as_u64`) only ever succeed on strings,
arrays and integral numbers. -/

inductive Json where
  | null
  | bool (b : Bool)
  | num (n : Int)
  | str (s : String)
  | arr (xs : List Json)
  | obj (fields : List (String × Json))

/-- `Value::get(key)` on an object: first binding for the key; `None` on
non-objects. -/
def Json.get? (j : Json) (key : String) : Option Json :=
  match j with
  | .obj fields => fields.lookup key
  | _ => none

/-- `Value::as_str()`. -/
def Json.as_str? : Json → Option String
  | .str s => some s
  | _ => none

/-- `Value::as_array()`. -/
def Json.as_arr? : Json → Option (List Json)
  | .arr xs => some xs
  | _ => none

/-- `Value::as_i64()`. -/
def Json.as_i64? : Json → Option Int
  | .num n => some n
  | _ => none

/-- `Value::as_u64()`: succeeds only on non-negative integers. -/
def Json.as_u64? : Json → Option Nat
  | .num n => if n < 0 then none else some n.toNat
  | _ => none

/-! ## Process lifecycle manager (`src/tools/process.rs`)

`ProcessInfo` (lines 21–28).  The `child : Option Child` handle is modelled by
its presence (`Option Unit`): the only thing `stop_app` does with it is branch
on presence and kill.  The crossbeam log channel attached to the record is
modelled by the list of lines currently queued in it, oldest first. -/

structure ProcessInfo where
  id : String
  child : Option Unit
  pid : Nat
  log_queue : List String
  is_attached : Bool

/-- The registry `processes : HashMap<String, ProcessInfo>` (line 17),
modelled as an association list with at most one binding per key in any
reachable state; the operations below use first-binding semantics, which
agrees with `HashMap` on such states. -/
abbrev Registry := List (String × ProcessInfo)

/-- `HashMap::remove`: drops the first binding for the key and returns it. -/
def registry_remove : Registry → String → Option ProcessInfo × Registry
  | [], _ => (none, [])
  | (k, info) :: rest, key =>
    if k == key then (some info, rest)
    else
      let r := registry_remove rest key
      (r.1, (k, info) :: r.2)

/-- `HashMap::get`. -/
def registry_get (st : Registry) (key : String) : Option ProcessInfo :=
  List.lookup key st

/-- Replace the log queue of the record bound to `key` (the effect on the
record's channel of draining it, or of the log task appending to it). -/
def registry_set_queue : Registry → String → List String → Registry
  | [], _, _ => []
  | (k, info) :: rest, key, q =>
    if k == key then (k, { info with log_queue := q }) :: rest
    else (k, info) :: registry_set_queue rest key q

/-! ### The bounded log channel (`bounded(1000)`, lines 60 and 224)

`launch_app` and `attach_to_app` both create the per-record log channel with
`crossbeam_channel::bounded(1000)`.  A `send` on a crossbeam bounded channel
enqueues when the channel holds fewer than `cap` messages and otherwise
blocks the sending task until space frees; nothing queued is ever discarded.
`log_send` returns `some` of the new queue when the send completes
immediately and `none` when the producer blocks (no state change). -/

def log_channel_capacity : Nat := 1000

def log_send (cap : Nat) (q : List String) (line : String) : Option (List String) :=
  if q.length < cap then some (q ++ [line]) else none

/-- The drop-oldest overflow policy the specification describes for a full
queue (spec §3, `log_queue`): discard the oldest entry to admit the new one.
Stated only to be compared with `log_send`; it is not what the code does. -/
def spec_drop_oldest_send (cap : Nat) (q : List String) (line : String) : List String :=
  if q.length < cap then q ++ [line] else q.drop 1 ++ [line]

/-- `log_reader` tags each line with its origin stream (lines 162 and 172). -/
def tag_stdout (line : String) : String := "[stdout] " ++ line

/-- Stderr tagging, line 172. -/
def tag_stderr (line : String) : String := "[stderr] " ++ line

/-! ### `stop_app` (lines 85–103)

The outcome records, besides the result and the registry left behind,
whether `child.kill()` was invoked and whether `log_handle.abort()` ran —
the two effects the invariant claims are about.  `kill_ok` tells whether the
OS kill succeeds (with `kill_err` its error text when it does not): this is
the one external choice on this path. -/

structure StopOutcome where
  result : Except String Unit
  st : Registry
  killed : Bool
  aborted : Bool

def stop_app (st : Registry) (process_id : String) (kill_ok : Bool)
    (kill_err : String) : StopOutcome :=
  match registry_remove st process_id with
  | (none, _) =>
    { result := .error ("Process not found: " ++ process_id)
      st := st, killed := false, aborted := false }
  | (some info, st') =>
    match info.child with
    | some _ =>
      if kill_ok then
        { result := .ok (), st := st', killed := true, aborted := true }
      else
        { result := .error ("Failed to kill process: " ++ kill_err)
          st := st', killed := true, aborted := false }
    | none =>
      if info.is_attached then
        { result := .error "Cannot stop externally launched process"
          st := st', killed := false, aborted := false }
      else
        { result := .ok (), st := st', killed := false, aborted := true }

/-! ### `get_app_logs` (lines 105–121)

Drains the record's channel with `try_recv` until it is empty, then applies
the optional cap `lines` by keeping the suffix starting at
`logs.len().saturating_sub(line_count)`.  The drained channel is the state
change: the record's queue is empty afterwards. -/

def get_app_logs (st : Registry) (process_id : String) (lines : Option Nat) :
    Except String (List String × Registry) :=
  match registry_get st process_id with
  | none => .error ("Process not found: " ++ process_id)
  | some info =>
    let logs := info.log_queue
    let logs :=
      match lines with
      | some line_count => logs.drop (logs.length - line_count)
      | none => logs
    .ok (logs, registry_set_queue st process_id [])

/-! ## Version negotiation (`src/server.rs`, `McpServerImpl::initialize`, lines 471–517)

`pkg_version` stands for `env!("CARGO_PKG_VERSION")`, a build-time constant
not fixed by the sources; all theorems quantify over it. -/

def supported_versions : List String := ["1.0", "2024-11-05"]

/-- The error text of lines 487–490: the requested version followed by the
`Debug` rendering of `SUPPORTED_VERSIONS`. -/
def unsupported_version_msg (protocol_version : String) : String :=
  "Unsupported protocol version: " ++ protocol_version ++
    ". Supported versions: [\"1.0\", \"2024-11-05\"]. Date-based versions (YYYY-MM-DD) are also accepted."

/-- `RpcError` as the server builds it: `invalid_params` with a message, or
`method_not_found`. -/
inductive RpcErr where
  | invalidParams (msg : String)
  | methodNotFound

/-- The success value of `initialize` (lines 501–516). -/
def init_response (pkg_version protocol_version : String) : Json :=
  .obj [
    ("protocolVersion", .str protocol_version),
    ("serverInfo", .obj [
      ("name", .str "tauri-mcp"),
      ("version", .str pkg_version),
      ("description", .str "MCP server for testing and interacting with Tauri v2 applications")]),
    ("capabilities", .obj [
      ("tools", .obj [("listTools", .bool true)]),
      ("resources", .obj []),
      ("prompts", .obj []),
      ("logging", .obj [])])]

/-- `McpServerImpl::initialize` (lines 471–517): accept the allow-list plus
any string of length 10 with a dash at character positions 4 and 7
(`protocol_version.chars().nth(4)` / `.nth(7)`); otherwise an invalid-params
error naming the supported set.  The `capabilities` argument is only bound
and dropped (line 497). -/
def init_method (pkg_version protocol_version : String) (capabilities : Json) :
    Except RpcErr Json :=
  let version_supported := supported_versions.contains protocol_version
  let is_date_version := protocol_version.length == 10
    && protocol_version.data.get? 4 == some '-'
    && protocol_version.data.get? 7 == some '-'
  let _client_capabilities := capabilities
  if !version_supported && !is_date_version then
    .error (.invalidParams (unsupported_version_msg protocol_version))
  else
    .ok (init_response pkg_version protocol_version)

/-- The pattern `YYYY-MM-DD` read literally, as the specification words it:
four digits, a dash, two digits, a dash, two digits.  Stated only to be
compared with the check `init_method` actually performs. -/
def spec_date_yyyymmdd (s : String) : Bool :=
  match s.data with
  | [y1, y2, y3, y4, d1, m1, m2, d2, a1, a2] =>
    y1.isDigit && y2.isDigit && y3.isDigit && y4.isDigit
      && d1 == '-' && m1.isDigit && m2.isDigit
      && d2 == '-' && a1.isDigit && a2.isDigit
  | _ => false

/-- The `initialize` registration in `serve` (lines 85–101): a missing or
non-string `protocolVersion` defaults to `"1.0"`, a missing `capabilities`
defaults to `Null`, then `McpServerImpl::initialize` runs.  Non-object
parameters are rejected before that. -/
def serve_init (pkg_version : String) (params : Json) : Except RpcErr Json :=
  match params with
  | .obj map =>
    let protocol_version := ((map.lookup "protocolVersion").bind Json.as_str?).getD "1.0"
    let capabilities := (map.lookup "capabilities").getD Json.null
    init_method pkg_version protocol_version capabilities
  | _ => .error (.invalidParams "Expected object parameters")

/-! ## The request loop and notifications (`TauriMcpServer::serve`, lines 181–224)

The loop hands each non-empty input line to `jsonrpc_core::IoHandler::
handle_request` and writes a line to stdout exactly when that returns a
response (lines 197–217); when it returns `None` the loop only logs.

Modelled from the spec: `jsonrpc_core::IoHandler::handle_request` is a
dependency, not part of `src/`.  Per the JSON-RPC 2.0 framing the spec
describes (§4.1, §6), a parsed message carrying a `method` field and no `id`
field is a notification and yields no response whatever the method or
parameters (errors are only logged); any message with an `id` yields exactly
one response, and an unparsable line yields one parse-error response.
`respond` abstracts the per-request answer (success or error envelope); the
input is the line's parse result (`none` = malformed JSON). -/

def is_notification (j : Json) : Bool :=
  (j.get? "id").isNone && (j.get? "method").isSome

def handle_request (respond : Json → Json) (parse_error_response : Json)
    (line : Option Json) : Option Json :=
  match line with
  | none => some parse_error_response
  | some j => if is_notification j then none else some (respond j)

/-- One iteration of the stdout side of the loop (lines 197–217): the list of
response lines written for one input line. -/
def serve_step (respond : Json → Json) (parse_error_response : Json)
    (line : Option Json) : List Json :=
  match handle_request respond parse_error_response line with
  | some response => [response]
  | none => []

/-! ## The tool dispatch table (`src/server.rs`)

Both dispatch entry points — the single-shot `TauriMcpServer::execute_tool`
(lines 229–458) and the interactive `McpServerImpl::call_tool`
(lines 922–1081, which routes through the thin `McpServerImpl` wrapper
methods of lines 526–752) — extract arguments from the same JSON object and
invoke the same underlying managers.  The managers and the external
capabilities are abstracted as an oracle: each field stands for the
corresponding manager/capability call, its `String` error being the
`to_string()` rendering both call sites feed to their error constructor. -/

structure Managers where
  launch_app : String → List String → Except String String
  stop_app : String → Except String Unit
  get_app_logs : String → Option Nat → Except String (List String)
  take_screenshot : String → Option String → Except String Json
  get_window_info : String → Except String Json
  send_keyboard_input : String → String → Except String Unit
  send_mouse_click : String → Int → Int → String → Except String Unit
  execute_js : String → String → Except String Json
  get_devtools_info : String → Except String Json
  monitor_resources : String → Except String Json
  list_ipc_handlers : String → Except String (List Json)
  call_ipc_command : String → String → Json → Except String Json
  find_running_apps : Except String (List Json)
  attach_to_app : Nat → Except String String

/-- `TauriMcpError` as `execute_tool` produces it: every error on that path
is `TauriMcpError::Other(msg)`. -/
inductive TauriMcpErr where
  | other (msg : String)

/-- The `as i32` cast applied to the `as_i64()` result of `x` and `y`
(lines 341/345 and 1005/1009). -/
def wrap_i32 (n : Int) : Int := (n + 2 ^ 31) % 2 ^ 32 - 2 ^ 31

/-- The `as u32` cast applied to the `as_u64()` result of `pid`
(lines 445 and 1075). -/
def wrap_u32 (n : Nat) : Nat := n % 2 ^ 32

/-- A `Vec<String>` rendered back into JSON. -/
def Json.of_strings (xs : List String) : Json := .arr (xs.map .str)

/-- `TauriMcpServer::execute_tool` (lines 229–458), after its JSON-string
argument has been parsed into `arguments`: per-tool extraction of required
and optional keys, the manager/capability call, and the wrapping of the
result, exactly as each `match` arm writes them. -/
def execute_tool_run (m : Managers) (tool_name : String) (arguments : Json) :
    Except TauriMcpErr Json :=
  match tool_name with
  | "launch_app" =>
    match (arguments.get? "app_path").bind Json.as_str? with
    | none => .error (.other "Missing app_path")
    | some app_path =>
      let args := (((arguments.get? "args").bind Json.as_arr?).map
        (fun arr => arr.filterMap Json.as_str?)).getD []
      match m.launch_app app_path args with
      | .error e => .error (.other e)
      | .ok process_id =>
        .ok (.obj [("process_id", .str process_id), ("status", .str "launched")])
  | "stop_app" =>
    match (arguments.get? "process_id").bind Json.as_str? with
    | none => .error (.other "Missing process_id")
    | some process_id =>
      match m.stop_app process_id with
      | .error e => .error (.other e)
      | .ok _ => .ok (.obj [("status", .str "stopped")])
  | "get_app_logs" =>
    match (arguments.get? "process_id").bind Json.as_str? with
    | none => .error (.other "Missing process_id")
    | some process_id =>
      let lines := (arguments.get? "lines").bind Json.as_u64?
      match m.get_app_logs process_id lines with
      | .error e => .error (.other e)
      | .ok logs => .ok (.obj [("logs", Json.of_strings logs)])
  | "take_screenshot" =>
    match (arguments.get? "process_id").bind Json.as_str? with
    | none => .error (.other "Missing process_id")
    | some process_id =>
      let output_path := (arguments.get? "output_path").bind Json.as_str?
      match m.take_screenshot process_id output_path with
      | .error e => .error (.other e)
      | .ok screenshot_data => .ok (.obj [("screenshot", screenshot_data)])
  | "get_window_info" =>
    match (arguments.get? "process_id").bind Json.as_str? with
    | none => .error (.other "Missing process_id")
    | some process_id =>
      match m.get_window_info process_id with
      | .error e => .error (.other e)
      | .ok info => .ok info
  | "send_keyboard_input" =>
    match (arguments.get? "process_id").bind Json.as_str? with
    | none => .error (.other "Missing process_id")
    | some process_id =>
      match (arguments.get? "keys").bind Json.as_str? with
      | none => .error (.other "Missing keys")
      | some keys =>
        match m.send_keyboard_input process_id keys with
        | .error e => .error (.other e)
        | .ok _ => .ok (.obj [("status", .str "sent")])
  | "send_mouse_click" =>
    match (arguments.get? "process_id").bind Json.as_str? with
    | none => .error (.other "Missing process_id")
    | some process_id =>
      match (arguments.get? "x").bind Json.as_i64? with
      | none => .error (.other "Missing x coordinate")
      | some x =>
        match (arguments.get? "y").bind Json.as_i64? with
        | none => .error (.other "Missing y coordinate")
        | some y =>
          let button := (((arguments.get? "button").bind Json.as_str?)).getD "left"
          match m.send_mouse_click process_id (wrap_i32 x) (wrap_i32 y) button with
          | .error e => .error (.other e)
          | .ok _ => .ok (.obj [("status", .str "clicked")])
  | "execute_js" =>
    match (arguments.get? "process_id").bind Json.as_str? with
    | none => .error (.other "Missing process_id")
    | some process_id =>
      match (arguments.get? "javascript_code").bind Json.as_str? with
      | none => .error (.other "Missing javascript_code")
      | some javascript_code =>
        match m.execute_js process_id javascript_code with
        | .error e => .error (.other e)
        | .ok result => .ok (.obj [("result", result)])
  | "get_devtools_info" =>
    match (arguments.get? "process_id").bind Json.as_str? with
    | none => .error (.other "Missing process_id")
    | some process_id =>
      match m.get_devtools_info process_id with
      | .error e => .error (.other e)
      | .ok info => .ok info
  | "monitor_resources" =>
    match (arguments.get? "process_id").bind Json.as_str? with
    | none => .error (.other "Missing process_id")
    | some process_id =>
      match m.monitor_resources process_id with
      | .error e => .error (.other e)
      | .ok resources => .ok resources
  | "list_ipc_handlers" =>
    match (arguments.get? "process_id").bind Json.as_str? with
    | none => .error (.other "Missing process_id")
    | some process_id =>
      match m.list_ipc_handlers process_id with
      | .error e => .error (.other e)
      | .ok handlers => .ok (.obj [("handlers", .arr handlers)])
  | "call_ipc_command" =>
    match (arguments.get? "process_id").bind Json.as_str? with
    | none => .error (.other "Missing process_id")
    | some process_id =>
      match (arguments.get? "command_name").bind Json.as_str? with
      | none => .error (.other "Missing command_name")
      | some command_name =>
        let args := (arguments.get? "args").getD Json.null
        match m.call_ipc_command process_id command_name args with
        | .error e => .error (.other e)
        | .ok result => .ok result
  | "find_running_apps" =>
    match m.find_running_apps with
    | .error e => .error (.other e)
    | .ok apps => .ok (.obj [("apps", .arr apps)])
  | "attach_to_app" =>
    match (arguments.get? "pid").bind Json.as_u64? with
    | none => .error (.other "Missing pid")
    | some pid =>
      match m.attach_to_app (wrap_u32 pid) with
      | .error e => .error (.other e)
      | .ok process_id =>
        .ok (.obj [("process_id", .str process_id), ("status", .str "attached")])
  | _ => .error (.other ("Unknown tool: " ++ tool_name))

/-- `McpServerImpl::call_tool` (lines 922–1081) after `name` and `arguments`
have been taken from `params`: the per-tool extraction of each `match` arm,
inlined with the `McpServerImpl` wrapper method it calls (lines 526–752,
which supply the defaults for the optional arguments passed through as
`Option` and wrap the manager result). -/
def call_tool_dispatch (m : Managers) (tool_name : String) (arguments : Json) :
    Except RpcErr Json :=
  match tool_name with
  | "launch_app" =>
    match (arguments.get? "app_path").bind Json.as_str? with
    | none => .error (.invalidParams "Missing app_path")
    | some app_path =>
      let args := ((arguments.get? "args").bind Json.as_arr?).map
        (fun arr => arr.filterMap Json.as_str?)
      match m.launch_app app_path (args.getD []) with
      | .error e => .error (.invalidParams e)
      | .ok process_id =>
        .ok (.obj [("process_id", .str process_id), ("status", .str "launched")])
  | "stop_app" =>
    match (arguments.get? "process_id").bind Json.as_str? with
    | none => .error (.invalidParams "Missing process_id")
    | some process_id =>
      match m.stop_app process_id with
      | .error e => .error (.invalidParams e)
      | .ok _ => .ok (.obj [("status", .str "stopped")])
  | "get_app_logs" =>
    match (arguments.get? "process_id").bind Json.as_str? with
    | none => .error (.invalidParams "Missing process_id")
    | some process_id =>
      let lines := (arguments.get? "lines").bind Json.as_u64?
      match m.get_app_logs process_id lines with
      | .error e => .error (.invalidParams e)
      | .ok logs => .ok (.obj [("logs", Json.of_strings logs)])
  | "take_screenshot" =>
    match (arguments.get? "process_id").bind Json.as_str? with
    | none => .error (.invalidParams "Missing process_id")
    | some process_id =>
      let output_path := (arguments.get? "output_path").bind Json.as_str?
      match m.take_screenshot process_id output_path with
      | .error e => .error (.invalidParams e)
      | .ok screenshot_data => .ok (.obj [("screenshot", screenshot_data)])
  | "get_window_info" =>
    match (arguments.get? "process_id").bind Json.as_str? with
    | none => .error (.invalidParams "Missing process_id")
    | some process_id =>
      match m.get_window_info process_id with
      | .error e => .error (.invalidParams e)
      | .ok info => .ok info
  | "send_keyboard_input" =>
    match (arguments.get? "process_id").bind Json.as_str? with
    | none => .error (.invalidParams "Missing process_id")
    | some process_id =>
      match (arguments.get? "keys").bind Json.as_str? with
      | none => .error (.invalidParams "Missing keys")
      | some keys =>
        match m.send_keyboard_input process_id keys with
        | .error e => .error (.invalidParams e)
        | .ok _ => .ok (.obj [("status", .str "sent")])
  | "send_mouse_click" =>
    match (arguments.get? "process_id").bind Json.as_str? with
    | none => .error (.invalidParams "Missing process_id")
    | some process_id =>
      match (arguments.get? "x").bind Json.as_i64? with
      | none => .error (.invalidParams "Missing x coordinate")
      | some x =>
        match (arguments.get? "y").bind Json.as_i64? with
        | none => .error (.invalidParams "Missing y coordinate")
        | some y =>
          let button := (arguments.get? "button").bind Json.as_str?
          match m.send_mouse_click process_id (wrap_i32 x) (wrap_i32 y) (button.getD "left") with
          | .error e => .error (.invalidParams e)
          | .ok _ => .ok (.obj [("status", .str "clicked")])
  | "execute_js" =>
    match (arguments.get? "process_id").bind Json.as_str? with
    | none => .error (.invalidParams "Missing process_id")
    | some process_id =>
      match (arguments.get? "javascript_code").bind Json.as_str? with
      | none => .error (.invalidParams "Missing javascript_code")
      | some javascript_code =>
        match m.execute_js process_id javascript_code with
        | .error e => .error (.invalidParams e)
        | .ok result => .ok (.obj [("result", result)])
  | "get_devtools_info" =>
    match (arguments.get? "process_id").bind Json.as_str? with
    | none => .error (.invalidParams "Missing process_id")
    | some process_id =>
      match m.get_devtools_info process_id with
      | .error e => .error (.invalidParams e)
      | .ok info => .ok info
  | "monitor_resources" =>
    match (arguments.get? "process_id").bind Json.as_str? with
    | none => .error (.invalidParams "Missing process_id")
    | some process_id =>
      match m.monitor_resources process_id with
      | .error e => .error (.invalidParams e)
      | .ok resources => .ok resources
  | "list_ipc_handlers" =>
    match (arguments.get? "process_id").bind Json.as_str? with
    | none => .error (.invalidParams "Missing process_id")
    | some process_id =>
      match m.list_ipc_handlers process_id with
      | .error e => .error (.invalidParams e)
      | .ok handlers => .ok (.obj [("handlers", .arr handlers)])
  | "call_ipc_command" =>
    match (arguments.get? "process_id").bind Json.as_str? with
    | none => .error (.invalidParams "Missing process_id")
    | some process_id =>
      match (arguments.get? "command_name").bind Json.as_str? with
      | none => .error (.invalidParams "Missing command_name")
      | some command_name =>
        let args := (arguments.get? "args")
        match m.call_ipc_command process_id command_name (args.getD Json.null) with
        | .error e => .error (.invalidParams e)
        | .ok result => .ok result
  | "find_running_apps" =>
    match m.find_running_apps with
    | .error e => .error (.invalidParams e)
    | .ok apps => .ok (.obj [("apps", .arr apps)])
  | "attach_to_app" =>
    match (arguments.get? "pid").bind Json.as_u64? with
    | none => .error (.invalidParams "Missing pid")
    | some pid =>
      match m.attach_to_app (wrap_u32 pid) with
      | .error e => .error (.invalidParams e)
      | .ok process_id =>
        .ok (.obj [("process_id", .str process_id), ("status", .str "attached")])
  | _ => .error .methodNotFound

/-- The names of the catalog entries returned by `McpServerImpl::list_tools`
(lines 754–920), in the order of the `tools` array. -/
def list_tools_names : List String :=
  ["launch_app", "stop_app", "get_app_logs", "take_screenshot",
   "get_window_info", "send_keyboard_input", "send_mouse_click", "execute_js",
   "get_devtools_info", "monitor_resources", "list_ipc_handlers",
   "call_ipc_command", "find_running_apps", "attach_to_app"]

/-! ## Concrete demonstration inputs -/

/-- A record as `attach_to_app` builds it (lines 232–239): no owned child
handle, `is_attached` set, empty log channel. -/
def attached_demo_info : ProcessInfo :=
  { id := "s1", child := none, pid := 4242, log_queue := [], is_attached := true }

/-- A registry tracking one attached process under session-id `"s1"`. -/
def attached_demo_registry : Registry := [("s1", attached_demo_info)]

/-- A record as `launch_app` builds it (lines 69–76): owned child handle,
not attached. -/
def launched_demo_info : ProcessInfo :=
  { id := "s2", child := some (), pid := 777, log_queue := ["[stdout] a"], is_attached := false }

/-- A registry tracking one launched process under session-id `"s2"`. -/
def launched_demo_registry : Registry := [("s2", launched_demo_info)]

/-- A launched record with three buffered log lines, for the log-drain
claims. -/
def logs_demo_info : ProcessInfo :=
  { id := "s3", child := some (), pid := 9, is_attached := false
    log_queue := ["[stdout] one", "[stderr] two", "[stdout] three"] }

/-- Registry for the log-drain claims. -/
def logs_demo_registry : Registry := [("s3", logs_demo_info)]

/-! ## Helper lemmas -/

theorem registry_get_set_queue (st : Registry) (key : String) (q : List String) :
    registry_get (registry_set_queue st key q) key =
      (registry_get st key).map (fun info => { info with log_queue := q }) := by
  induction st with
  | nil => rfl
  | cons hd tl ih =>
    obtain ⟨k, info⟩ := hd
    by_cases hk : k = key
    · subst hk
      simp [registry_set_queue, registry_get, List.lookup]
    · have hkk : (key == k) = false := by
        simp only [beq_eq_false_iff_ne, ne_eq]
        exact fun h => hk h.symm
      have hkk' : (k == key) = false := by
        simp only [beq_eq_false_iff_ne, ne_eq]
        exact hk
      simp only [registry_set_queue, registry_get, List.lookup, hkk, hkk'] at ih ⊢
      exact ih

theorem registry_set_queue_idem (st : Registry) (key : String) (q q' : List String) :
    registry_set_queue (registry_set_queue st key q) key q' =
      registry_set_queue st key q' := by
  induction st with
  | nil => rfl
  | cons hd tl ih =>
    obtain ⟨k, info⟩ := hd
    by_cases hk : k = key
    · subst hk
      simp [registry_set_queue]
    · simp only [registry_set_queue, beq_iff_eq, if_neg hk]
      rw [ih]

/-! ## Claim theorems: process lifecycle manager -/

/-- Claim C1 (code behavior at the failing input).  The claim states that
`stop_app` on an attached session-id fails with the "cannot stop
externally-owned process" error and leaves the registry unchanged.  The
code does return that error, but `stop_app` begins with
`self.processes.remove(process_id)` (line 86), so by the time the attached
branch rejects the call the record is already gone: after the failed call
the registry no longer contains the session-id. -/
theorem stop_app_attached_removes_record :
    (stop_app attached_demo_registry "s1" true "").result =
        .error "Cannot stop externally launched process" ∧
      registry_get attached_demo_registry "s1" = some attached_demo_info ∧
      registry_get (stop_app attached_demo_registry "s1" true "").st "s1" = none := by
  refine ⟨rfl, rfl, rfl⟩

/-- Claim C3 (code behavior at the failing inputs).  The claim states the
log task is cancelled exactly once, at record removal, on every removal
path of `stop_app`.  On both error paths the record is removed (the
`remove` on line 86) yet `log_handle.abort()` (line 100) is never reached:
the attached branch and the kill-failure branch return early, so the task
is leaked, not cancelled.  The successful path does abort. -/
theorem stop_app_error_paths_skip_abort :
    ((stop_app attached_demo_registry "s1" true "").st = [] ∧
        (stop_app attached_demo_registry "s1" true "").aborted = false) ∧
      ((stop_app launched_demo_registry "s2" false "kill failed").st = [] ∧
        (stop_app launched_demo_registry "s2" false "kill failed").aborted = false) ∧
      (stop_app launched_demo_registry "s2" true "").aborted = true := by
  exact ⟨⟨rfl, rfl⟩, ⟨rfl, rfl⟩, rfl⟩

/-- Claim C2, counterexample.  The claim asserts the full log queue admits a
new line by discarding the oldest entry and never blocks the producer.  The
channel is `crossbeam_channel::bounded(1000)` and its `send` on a full
channel blocks (no enqueue, nothing discarded): at a queue holding 1000
lines, the send does not complete and in particular does not produce the
drop-oldest queue the claim describes. -/
theorem log_send_full_queue_blocks_cx :
    log_send log_channel_capacity (List.replicate 1000 "[stdout] x") "[stdout] y" = none ∧
      log_send log_channel_capacity (List.replicate 1000 "[stdout] x") "[stdout] y" ≠
        some (spec_drop_oldest_send log_channel_capacity
          (List.replicate 1000 "[stdout] x") "[stdout] y") := by
  have hlen : (List.replicate 1000 "[stdout] x").length = 1000 :=
    List.length_replicate 1000 _
  have hsend : log_send log_channel_capacity
      (List.replicate 1000 "[stdout] x") "[stdout] y" = none := by
    unfold log_send
    rw [hlen]
    exact if_neg (by decide)
  exact ⟨hsend, by rw [hsend]; exact fun hcon => Option.noConfusion hcon⟩

/-- Claim C2, amended: the per-process log queue has fixed capacity 1000; a
send to a queue holding fewer than 1000 lines appends the line (preserving
everything queued), and a send to a full queue does not complete — the
producer blocks and no queued entry is discarded. -/
theorem log_send_bounded (q : List String) (line : String) :
    (∀ q', log_send log_channel_capacity q line = some q' →
        q'.length ≤ log_channel_capacity ∧ q'.take q.length = q ∧
          q' = q ++ [line]) ∧
    (q.length = log_channel_capacity → log_send log_channel_capacity q line = none) := by
  unfold log_send
  by_cases hlt : q.length < log_channel_capacity
  · refine ⟨?_, ?_⟩
    · intro q' hq'
      rw [if_pos hlt] at hq'
      obtain rfl : q ++ [line] = q' := Option.some.inj hq'
      refine ⟨?_, ?_, rfl⟩
      · rw [List.length_append]
        simpa using hlt
      · exact List.take_left q [line]
    · intro hfull
      omega
  · refine ⟨?_, ?_⟩
    · intro q' hq'
      rw [if_neg hlt] at hq'
      exact absurd hq' (by simp)
    · intro _
      rw [if_neg hlt]

/-- Witness for `log_send_bounded` at a one-line queue. -/
theorem log_send_bounded_witness :
    log_send log_channel_capacity ["[stdout] a"] "[stderr] b" =
        some ["[stdout] a", "[stderr] b"] ∧
      (["[stdout] a", "[stderr] b"] : List String).length ≤ log_channel_capacity ∧
      (["[stdout] a", "[stderr] b"] : List String).take 1 = ["[stdout] a"] :=
  ⟨by decide,
    ((log_send_bounded ["[stdout] a"] "[stderr] b").1
      ["[stdout] a", "[stderr] b"] (by decide)).1,
    (((log_send_bounded ["[stdout] a"] "[stderr] b").1
      ["[stdout] a", "[stderr] b"] (by decide)).2).1⟩

/-- Claim C4: for a tracked session-id, `get_app_logs` with no cap returns
everything buffered and empties the buffer, and a second call (with any cap
argument) before new output returns the empty list: a destructive drain, no
line is returned twice. -/
theorem get_app_logs_drains (st : Registry) (id : String) (info : ProcessInfo)
    (h : registry_get st id = some info) :
    ∃ st', get_app_logs st id none = .ok (info.log_queue, st') ∧
      ∀ lines, get_app_logs st' id lines = .ok ([], st') := by
  refine ⟨registry_set_queue st id [], ?_, ?_⟩
  · unfold get_app_logs
    rw [h]
  · intro lines
    unfold get_app_logs
    rw [registry_get_set_queue, h]
    cases lines with
    | none => simp [registry_set_queue_idem]
    | some n => simp [registry_set_queue_idem]

/-- Witness for `get_app_logs_drains` on a registry with three buffered
lines. -/
theorem get_app_logs_drains_witness :
    registry_get logs_demo_registry "s3" = some logs_demo_info ∧
      ∃ st', get_app_logs logs_demo_registry "s3" none =
          .ok (["[stdout] one", "[stderr] two", "[stdout] three"], st') ∧
        ∀ lines, get_app_logs st' "s3" lines = .ok ([], st') :=
  ⟨rfl, get_app_logs_drains logs_demo_registry "s3" logs_demo_info rfl⟩

/-- Claim C5: `get_app_logs` with cap `n` returns at most `n` lines, always
a suffix of the buffer (the most recently appended lines, in order), and
exactly `n` of them when more than `n` are buffered. -/
theorem get_app_logs_capped (st : Registry) (id : String) (info : ProcessInfo)
    (n : Nat) (h : registry_get st id = some info) :
    ∃ out st', get_app_logs st id (some n) = .ok (out, st') ∧
      out = info.log_queue.drop (info.log_queue.length - n) ∧
      out.length ≤ n ∧
      out <:+ info.log_queue ∧
      (n ≤ info.log_queue.length → out.length = n) := by
  refine ⟨info.log_queue.drop (info.log_queue.length - n),
    registry_set_queue st id [], ?_, rfl, ?_, ?_, ?_⟩
  · unfold get_app_logs
    rw [h]
  · rw [List.length_drop]
    omega
  · exact List.drop_suffix _ _
  · intro hn
    rw [List.length_drop]
    omega

/-- Witness for `get_app_logs_capped`: three lines buffered, cap 2 returns
the last two in order. -/
theorem get_app_logs_capped_witness :
    registry_get logs_demo_registry "s3" = some logs_demo_info ∧
      ∃ out st', get_app_logs logs_demo_registry "s3" (some 2) = .ok (out, st') ∧
        out = ["[stderr] two", "[stdout] three"] ∧ out.length ≤ 2 ∧
        out <:+ logs_demo_info.log_queue ∧
        (2 ≤ logs_demo_info.log_queue.length → out.length = 2) := by
  refine ⟨rfl, ?_⟩
  obtain ⟨out, st', h1, h2, h3, h4, h5⟩ :=
    get_app_logs_capped logs_demo_registry "s3" logs_demo_info 2 rfl
  exact ⟨out, st', h1, by rw [h2]; rfl, h3, h4, h5⟩

/-! ## Helper lemmas: version negotiation and dispatch -/

theorem init_method_ok (pkg pv : String) (caps : Json)
    (hok : pv ∈ supported_versions ∨
      (pv.length = 10 ∧ pv.data.get? 4 = some '-' ∧ pv.data.get? 7 = some '-')) :
    init_method pkg pv caps = .ok (init_response pkg pv) := by
  have hcond : (!supported_versions.contains pv &&
      !(pv.length == 10 && pv.data.get? 4 == some '-'
        && pv.data.get? 7 == some '-')) = false := by
    rcases hok with hmem | ⟨h1, h2, h3⟩
    · have hc1 : supported_versions.contains pv = true := by simp [hmem]
      rw [hc1, Bool.not_true, Bool.false_and]
    · have hc2 : (pv.length == 10 && pv.data.get? 4 == some '-'
          && pv.data.get? 7 == some '-') = true := by
        rw [Bool.and_eq_true, Bool.and_eq_true]
        exact ⟨⟨beq_iff_eq.mpr h1, beq_iff_eq.mpr h2⟩, beq_iff_eq.mpr h3⟩
      rw [hc2, Bool.not_true, Bool.and_false]
  simp only [init_method, hcond]
  simp

theorem init_method_err (pkg pv : String) (caps : Json)
    (hmem : pv ∉ supported_versions)
    (hdate : ¬(pv.length = 10 ∧ pv.data.get? 4 = some '-' ∧ pv.data.get? 7 = some '-')) :
    init_method pkg pv caps = .error (.invalidParams (unsupported_version_msg pv)) := by
  have h1 : supported_versions.contains pv = false := by simp [hmem]
  have h2 : (pv.length == 10 && pv.data.get? 4 == some '-'
      && pv.data.get? 7 == some '-') = false := by
    apply Bool.eq_false_iff.mpr
    intro htrue
    rw [Bool.and_eq_true, Bool.and_eq_true] at htrue
    exact hdate ⟨beq_iff_eq.mp htrue.1.1, beq_iff_eq.mp htrue.1.2,
      beq_iff_eq.mp htrue.2⟩
  have hcond : (!supported_versions.contains pv &&
      !(pv.length == 10 && pv.data.get? 4 == some '-'
        && pv.data.get? 7 == some '-')) = true := by
    rw [h1, h2]
    rfl
  simp only [init_method, hcond]
  simp

theorem except_isOk_iff {ε α : Type} (e : Except ε α) :
    e.isOk = true ↔ ∃ v, e = .ok v := by
  cases e <;> simp [Except.isOk, Except.toBool]

theorem dispatch_ok_agree (m : Managers) (tool_name : String) (arguments : Json)
    (v : Json) :
    execute_tool_run m tool_name arguments = .ok v ↔
      call_tool_dispatch m tool_name arguments = .ok v := by
  unfold execute_tool_run call_tool_dispatch
  split <;> (repeat' split) <;> (try simp_all) <;>
    (first
      | (cases hr : m.launch_app _ _ <;> simp_all)
      | (cases hr : m.get_app_logs _ _ <;> simp_all)
      | (cases hr : m.take_screenshot _ _ <;> simp_all)
      | (cases hr : m.send_mouse_click _ _ _ _ <;> simp_all)
      | (cases hr : m.call_ipc_command _ _ _ <;> simp_all))

theorem dispatch_mnf_iff (m : Managers) (tool_name : String) (arguments : Json) :
    call_tool_dispatch m tool_name arguments = .error .methodNotFound ↔
      tool_name ∉ list_tools_names := by
  unfold call_tool_dispatch
  split <;> (repeat' split) <;> (try simp_all [list_tools_names]) <;>
    (first
      | (cases hr : m.launch_app _ _ <;> simp_all)
      | (cases hr : m.get_app_logs _ _ <;> simp_all)
      | (cases hr : m.take_screenshot _ _ <;> simp_all)
      | (cases hr : m.send_mouse_click _ _ _ _ <;> simp_all)
      | (cases hr : m.call_ipc_command _ _ _ <;> simp_all))

/-! ## Claim theorems: protocol session and dispatch -/

/-- Claim C6, counterexample.  The claim says only `"1.0"`, `"2024-11-05"`
and strings matching the date pattern `YYYY-MM-DD` are accepted, everything
else failing with invalid-params.  The code's date check (lines 481–483)
only requires length 10 and a dash at character positions 4 and 7, never
that the other characters are digits: `"abcd-ef-gh"` matches no `YYYY-MM-DD`
date and is not on the allow-list, yet `initialize` accepts it. -/
theorem init_nondigit_date_accepted_cx :
    spec_date_yyyymmdd "abcd-ef-gh" = false ∧
      "abcd-ef-gh" ∉ supported_versions ∧
      init_method "0.1.0" "abcd-ef-gh" Json.null =
        .ok (init_response "0.1.0" "abcd-ef-gh") := by
  refine ⟨by decide, by decide, ?_⟩
  exact init_method_ok "0.1.0" "abcd-ef-gh" Json.null (Or.inr (by decide))

/-- Claim C6, amended: `initialize` succeeds — echoing the requested version
in the response — exactly for `"1.0"`, `"2024-11-05"`, and every string of
length 10 with `'-'` at character positions 4 and 7 (which includes every
`YYYY-MM-DD` string but also non-digit strings of that shape); any other
string fails with an invalid-params error whose message lists the supported
versions. -/
theorem init_version_rule (pkg pv : String) (caps : Json) :
    ((pv ∈ supported_versions ∨
        (pv.length = 10 ∧ pv.data.get? 4 = some '-' ∧ pv.data.get? 7 = some '-')) →
      init_method pkg pv caps = .ok (init_response pkg pv)) ∧
    (pv ∉ supported_versions →
      ¬(pv.length = 10 ∧ pv.data.get? 4 = some '-' ∧ pv.data.get? 7 = some '-') →
      init_method pkg pv caps = .error (.invalidParams (unsupported_version_msg pv))) ∧
    (init_response pkg pv).get? "protocolVersion" = some (.str pv) := by
  exact ⟨init_method_ok pkg pv caps, init_method_err pkg pv caps, rfl⟩

/-- Witness for `init_version_rule`: `"2024-11-05"` is accepted and echoed,
`"abc"` is rejected with the message naming the supported versions. -/
theorem init_version_rule_witness :
    init_method "0.1.0" "2024-11-05" Json.null =
        .ok (init_response "0.1.0" "2024-11-05") ∧
      init_method "0.1.0" "abc" Json.null =
        .error (.invalidParams (unsupported_version_msg "abc")) :=
  ⟨(init_version_rule "0.1.0" "2024-11-05" Json.null).1 (Or.inl (by decide)),
    (init_version_rule "0.1.0" "abc" Json.null).2.1 (by decide) (by decide)⟩

/-- Claim C7: the catalog `tools/list` publishes and the names the
`tools/call` dispatcher accepts are the same set — a name is in the catalog
exactly when dispatching it does not fall through to `method_not_found`,
whatever the arguments and whatever the managers do. -/
theorem catalog_matches_dispatch (m : Managers) (tool_name : String)
    (arguments : Json) :
    tool_name ∈ list_tools_names ↔
      call_tool_dispatch m tool_name arguments ≠ .error .methodNotFound := by
  rw [ne_eq, dispatch_mnf_iff]
  exact not_not.symm

/-- Claim C8: an input line parsed as a JSON object with a `method` field
and no `id` field is a notification; the request loop writes no response
line for it, whatever answering the request would have produced (in
particular for unknown methods or invalid parameters). -/
theorem notification_no_response (respond : Json → Json)
    (parse_error_response : Json) (j : Json) (h : is_notification j = true) :
    serve_step respond parse_error_response (some j) = [] := by
  simp [serve_step, handle_request, h]

/-- Witness for `notification_no_response` on a notification naming an
unknown method. -/
theorem notification_no_response_witness :
    is_notification (Json.obj [("method", Json.str "no/such/method")]) = true ∧
      serve_step (fun j => j) Json.null
        (some (Json.obj [("method", Json.str "no/such/method")])) = [] :=
  ⟨rfl, notification_no_response (fun j => j) Json.null
    (Json.obj [("method", Json.str "no/such/method")]) rfl⟩

/-- Claim C9: the single-shot `execute_tool` entry point and the interactive
`tools/call` dispatcher agree for every tool name and argument object over
any manager behavior: they produce the same success value, and each fails
exactly when the other does (missing required keys, unknown tool names). -/
theorem tool_dispatch_paths_agree (m : Managers) (tool_name : String)
    (arguments : Json) :
    (∀ v, execute_tool_run m tool_name arguments = .ok v ↔
        call_tool_dispatch m tool_name arguments = .ok v) ∧
    (execute_tool_run m tool_name arguments).isOk =
      (call_tool_dispatch m tool_name arguments).isOk := by
  refine ⟨dispatch_ok_agree m tool_name arguments, ?_⟩
  by_cases hok : (execute_tool_run m tool_name arguments).isOk = true
  · obtain ⟨v, hv⟩ := (except_isOk_iff _).1 hok
    rw [hok, (except_isOk_iff _).2
      ⟨v, (dispatch_ok_agree m tool_name arguments v).1 hv⟩]
  · have h2 : ¬(call_tool_dispatch m tool_name arguments).isOk = true := by
      intro hc
      obtain ⟨v, hv⟩ := (except_isOk_iff _).1 hc
      exact hok ((except_isOk_iff _).2
        ⟨v, (dispatch_ok_agree m tool_name arguments v).2 hv⟩)
    rw [Bool.not_eq_true] at hok h2
    rw [hok, h2]

/-- Claim C10: `initialize` called with `protocolVersion` absent from the
parameter map does not raise a missing-argument error — the handler
substitutes `"1.0"` (and `Null` for an absent `capabilities`) and the call
succeeds, reporting `"1.0"` as the negotiated version. -/
theorem serve_init_defaults (pkg : String) (map : List (String × Json))
    (h1 : map.lookup "protocolVersion" = none)
    (h2 : map.lookup "capabilities" = none) :
    serve_init pkg (.obj map) = .ok (init_response pkg "1.0") ∧
      (init_response pkg "1.0").get? "protocolVersion" = some (.str "1.0") := by
  refine ⟨?_, rfl⟩
  simp only [serve_init, h1, h2, Option.bind_none, Option.getD_none]
  exact init_method_ok pkg "1.0" Json.null (Or.inl (by decide))

/-- Witness for `serve_init_defaults` at the empty parameter map. -/
theorem serve_init_defaults_witness :
    ([] : List (String × Json)).lookup "protocolVersion" = none ∧
      serve_init "0.1.0" (.obj []) = .ok (init_response "0.1.0" "1.0") :=
  ⟨rfl, (serve_init_defaults "0.1.0" [] rfl rfl).1⟩

end TauriMcp
